import Mathlib

/-!
Shallow embedding of the kyros repository's runtime helper scripts
(`src/test-prod.mjs`'s `WebGLFallback`, the `MobileOptimizer` helper,
and the diagnostic scripts `check.mjs`, `check-detailed.mjs`,
`test-mobile-safari.mjs`), together with theorems settling the spec's
claims about them.

Conventions of the embedding:
* JavaScript strings are Lean `String`s; `String.prototype.includes`
  becomes a substring test on character lists, and case-insensitive
  regex token tests lower both sides first (all tokens are ASCII).
* The DOM is a list of abstract elements (`Elem`); `document.querySelector
  ('canvas')` followed by `.remove()` removes the first canvas element.
* `setTimeout(cb, ms)` becomes a returned `TimerTask` holding the delay
  and the callback's effect on the document.
* Thrown exceptions in the Node scripts are `Except`; an uncaught
  rejection aborts the process with a non-zero exit status (spec §6),
  normal completion exits 0.
-/

/-! ## String utilities (JS `includes` and the regex token tests) -/

/-- `listHasPrefix n h` : the character list `n` is a prefix of `h`. -/
def listHasPrefix : List Char → List Char → Bool
  | [], _ => true
  | _ :: _, [] => false
  | n :: ns, h :: hs => n == h && listHasPrefix ns hs

/-- `containsSub n h` : `n` occurs as a contiguous sublist of `h`. -/
def containsSub (needle : List Char) : List Char → Bool
  | [] => listHasPrefix needle []
  | h :: hs => listHasPrefix needle (h :: hs) || containsSub needle hs

/-- JavaScript `hay.includes(needle)` (case-sensitive). -/
def strIncludes (hay needle : String) : Bool :=
  containsSub needle.toList hay.toList

/-- ASCII lower-casing of a string, as a character list. -/
def lowerStr (s : String) : List Char :=
  s.toList.map Char.toLower

/-- Case-insensitive token test: `/token/i.test(hay)` for an ASCII literal
token (used by `/iPhone|iPad|iPod|Android/i`). -/
def testCI (hay needle : String) : Bool :=
  containsSub (lowerStr needle) (lowerStr hay)

/-- `/^((?!chrome|android).)*safari/i.test(ua)` scanned left to right over
the lowered string: succeed on reaching an occurrence of `safari`, fail as
soon as `chrome` or `android` starts at the current position (the negative
lookahead blocks consuming past it). -/
def safariScan : List Char → Bool
  | [] => false
  | c :: rest =>
    if listHasPrefix ("safari".toList) (c :: rest) then true
    else if listHasPrefix ("chrome".toList) (c :: rest)
         || listHasPrefix ("android".toList) (c :: rest) then false
    else safariScan rest

/-! ## DOM model -/

/-- The document elements the fallback paths create or remove.
`canvas3d` is the WebGL scene canvas; `fallbackCanvas2d` the 2D canvas
appended by `WebGLFallback.initializeFallbackCanvas`; `notificationDiv`
the banner from `showFallbackNotification`; `overlayDiv` the full-screen
message from `MobileOptimizer.showFallbackMessage`. -/
inductive Elem where
  | canvas3d
  | fallbackCanvas2d
  | notificationDiv
  | overlayDiv
  | otherElem
deriving DecidableEq, Repr

/-- Does the element match the CSS selector `canvas`? -/
def isCanvasElem : Elem → Bool
  | .canvas3d => true
  | .fallbackCanvas2d => true
  | _ => false

/-- Number of canvas elements in a document. -/
def countCanvas (doc : List Elem) : Nat :=
  doc.countP (fun e => isCanvasElem e)

/-- `document.querySelector('canvas')?.remove()`: drop the first canvas
element, if any (`WebGLFallback.initializeFallbackCanvas`, first step). -/
def removeFirstCanvas : List Elem → List Elem
  | [] => []
  | e :: rest => if isCanvasElem e then rest else e :: removeFirstCanvas rest

/-- A `setTimeout` registration: the delay in milliseconds and the
callback's effect on the document when it fires. -/
structure TimerTask where
  delayMs : Nat
  run : List Elem → List Elem

namespace WebGLFallback

/-- The `WebGLFallback` instance state the claims touch: the
`fallbackMode` flag and the document. -/
structure FallbackState where
  fallbackMode : Bool
  doc : List Elem
deriving DecidableEq, Repr

/-- Document effect of `enableFallbackMode`: `initializeFallbackCanvas`
removes the first existing canvas and appends the 2D canvas;
`createFallbackScene` and `startFallbackAnimation` append nothing
(the Earth sprite canvas is created but never attached);
`showFallbackNotification` appends the banner div. -/
def enableFallbackModeDoc (doc : List Elem) : List Elem :=
  removeFirstCanvas doc ++ [Elem.fallbackCanvas2d, Elem.notificationDiv]

/-- `enableFallbackMode`: set `fallbackMode := true` and apply the
document effect. -/
def enableFallbackMode (s : FallbackState) : FallbackState :=
  { fallbackMode := true, doc := enableFallbackModeDoc s.doc }

/-- `handleWebGLContextLoss`: enable the fallback only when
`fallbackMode` is not yet set. -/
def handleWebGLContextLoss (s : FallbackState) : FallbackState :=
  if s.fallbackMode then s else enableFallbackMode s

/-- `showFallbackNotification`: append the banner div and schedule its
removal (`parentNode.removeChild` if still attached) after 5000 ms. -/
def showFallbackNotification (doc : List Elem) : List Elem × TimerTask :=
  (doc ++ [Elem.notificationDiv],
   ⟨5000, fun d => d.erase Elem.notificationDiv⟩)

end WebGLFallback

namespace MobileOptimizer

/-- `this.isMobile = /iPhone|iPad|iPod|Android/i.test(navigator.userAgent)`. -/
def mobileTest (ua : String) : Bool :=
  testCI ua "iPhone" || testCI ua "iPad" || testCI ua "iPod" || testCI ua "Android"

/-- `this.isSafari = /^((?!chrome|android).)*safari/i.test(navigator.userAgent)`. -/
def safariTest (ua : String) : Bool :=
  safariScan (lowerStr ua)

/-- `this.isIOS = /iPad|iPhone|iPod/.test(navigator.userAgent)` (case-sensitive). -/
def iosTest (ua : String) : Bool :=
  strIncludes ua "iPad" || strIncludes ua "iPhone" || strIncludes ua "iPod"

/-- The `MobileOptimizer` fields the preset getters read. -/
structure Optimizer where
  isMobile : Bool
  isSafari : Bool
  isIOS : Bool
  devicePixelRatio : ℚ
deriving DecidableEq, Repr

/-- The constructor's device sniffing, from the user-agent string and the
(already defaulted, `window.devicePixelRatio || 1`) pixel ratio. -/
def mkOptimizer (ua : String) (dpr : ℚ) : Optimizer :=
  { isMobile := mobileTest ua
    isSafari := safariTest ua
    isIOS := iosTest ua
    devicePixelRatio := dpr }

/-- `getOptimizedStarCount`: 150 on mobile iOS, 200 on other mobile,
400 on desktop. -/
def getOptimizedStarCount (m : Optimizer) : Nat :=
  if m.isMobile then (if m.isIOS then 150 else 200) else 400

/-- Camera parameter bundle returned by `getOptimizedCameraSettings`. -/
structure CameraSettings where
  fov : ℚ
  near : ℚ
  far : ℚ
  posX : ℚ
  posY : ℚ
  posZ : ℚ
deriving DecidableEq, Repr

/-- `getOptimizedCameraSettings`. -/
def getOptimizedCameraSettings (m : Optimizer) : CameraSettings :=
  if m.isMobile then
    { fov := 45, near := 1/10, far := 1000, posX := 0, posY := 0, posZ := 22 }
  else
    { fov := 60, near := 1, far := 2000, posX := 0, posY := 0, posZ := 28 }

/-- A single light specification (color, intensity, and the point light's
distance when present). -/
structure LightSpec where
  color : Nat
  intensity : ℚ
  distance : Option ℚ := none
deriving DecidableEq, Repr

/-- Lighting bundle returned by `getOptimizedLighting`. -/
structure Lighting where
  sunLight : LightSpec
  ambientLight : LightSpec
  rimLight : LightSpec
  textLight : LightSpec
deriving DecidableEq, Repr

/-- `getOptimizedLighting`. -/
def getOptimizedLighting (m : Optimizer) : Lighting :=
  if m.isMobile then
    { sunLight := ⟨0xffffff, 4, none⟩
      ambientLight := ⟨0xffffff, 3/10, none⟩
      rimLight := ⟨0xd4e5ff, 3, none⟩
      textLight := ⟨0xfff8e7, 3, some 25⟩ }
  else
    { sunLight := ⟨0xffffff, 8, none⟩
      ambientLight := ⟨0xffffff, 4/10, none⟩
      rimLight := ⟨0xd4e5ff, 6, none⟩
      textLight := ⟨0xfff8e7, 5, some 30⟩ }

/-- Performance bundle returned by `getPerformanceSettings`. -/
structure PerformanceSettings where
  pixelRatio : ℚ
  shadowMapSize : Nat
  maxLights : Nat
  enableShadows : Bool
  enablePostProcessing : Bool
  textureQuality : String
deriving DecidableEq, Repr

/-- `getPerformanceSettings`: `pixelRatio` is
`Math.min(this.devicePixelRatio, this.isMobile ? 1 : 2)`. -/
def getPerformanceSettings (m : Optimizer) : PerformanceSettings :=
  { pixelRatio := min m.devicePixelRatio (if m.isMobile then 1 else 2)
    shadowMapSize := if m.isMobile then 512 else 2048
    maxLights := if m.isMobile then 3 else 8
    enableShadows := !m.isMobile
    enablePostProcessing := false
    textureQuality := if m.isMobile then "medium" else "high" }

/-- The page state `MobileOptimizer.handleWebGLContextLoss` touches:
the document, whether the renderer's animation loop is running, and the
pending `window.location.reload()` delay, if one is scheduled. -/
structure PageState where
  doc : List Elem
  animationLoopActive : Bool
  reloadDelayMs : Option Nat
deriving DecidableEq, Repr

/-- `showFallbackMessage`: append the full-screen overlay div and
schedule its removal (if still attached) after 5000 ms. -/
def showFallbackMessage (doc : List Elem) : List Elem × TimerTask :=
  (doc ++ [Elem.overlayDiv],
   ⟨5000, fun d => d.erase Elem.overlayDiv⟩)

/-- `handleWebGLContextLoss(renderer)`: disable the animation loop, show
the overlay message, and schedule `window.location.reload()` after
2000 ms. It neither removes the 3D canvas nor mounts any 2D canvas. -/
def handleWebGLContextLoss (s : PageState) : PageState :=
  { doc := (showFallbackMessage s.doc).1
    animationLoopActive := false
    reloadDelayMs := some 2000 }

/-- A disposable GPU resource (Three.js geometry/material): records
whether `dispose()` has been called on it. -/
structure Disposable where
  disposed : Bool
deriving DecidableEq, Repr

/-- `obj.material` may be absent, a single material, or an array. -/
inductive MaterialSlot where
  | noMaterial
  | single (m : Disposable)
  | array (ms : List Disposable)
deriving DecidableEq, Repr

/-- `dispose()` applied to every material present, as in the
`Array.isArray(obj.material)` branch of `emergencyMemoryCleanup`. -/
def disposeMaterialSlot : MaterialSlot → MaterialSlot
  | .noMaterial => .noMaterial
  | .single _ => .single ⟨true⟩
  | .array ms => .array (ms.map fun _ => ⟨true⟩)

/-- All materials in the slot disposed? -/
def materialSlotDisposed : MaterialSlot → Bool
  | .noMaterial => true
  | .single m => m.disposed
  | .array ms => ms.all (fun m => m.disposed)

/-- A scene object in `window.orbitalObjects`: whether it is attached to
a parent, its optional geometry, and its material slot. -/
structure SceneObj where
  parentAttached : Bool
  geometry : Option Disposable
  material : MaterialSlot
deriving DecidableEq, Repr

/-- The per-object body of `emergencyMemoryCleanup`'s `forEach`: only
when `obj.parent` is truthy, detach the object and dispose its geometry
(optional chaining) and material(s); otherwise leave it untouched. -/
def cleanupObj (o : SceneObj) : SceneObj :=
  if o.parentAttached then
    { parentAttached := false
      geometry := o.geometry.map fun _ => ⟨true⟩
      material := disposeMaterialSlot o.material }
  else o

/-- `emergencyMemoryCleanup`'s effect on `window.orbitalObjects`:
`slice(2).forEach(...)` mutates the objects past index 1, then
`window.orbitalObjects = window.orbitalObjects.slice(0, 2)`.
Returns the new `window.orbitalObjects` and the post-state of the
removed objects. -/
def emergencyMemoryCleanup (objs : List SceneObj) :
    List SceneObj × List SceneObj :=
  (objs.take 2, (objs.drop 2).map cleanupObj)

end MobileOptimizer

namespace WebGLFallback

/-- The driver substrings `detectWebGLSupport` blocklists. -/
def problematicDrivers : List String :=
  ["Software Renderer", "Mesa", "Intel HD Graphics 3000", "Intel HD Graphics 4000"]

/-- `problematicDrivers.some(driver => renderer.includes(driver) ||
vendor.includes(driver))`. -/
def hasProblematicDriver (renderer vendor : String) : Bool :=
  problematicDrivers.any (fun d => strIncludes renderer d || strIncludes vendor d)

/-- What the capability probe can observe about an obtained WebGL
context: the `WEBGL_debug_renderer_info` extension's renderer/vendor
strings when the extension is available, the two probed limits, and
whether the limit queries throw (the `try`/`catch` around them). -/
structure GLContext where
  debugInfo : Option (String × String)
  maxTextureSize : Nat
  maxVertexAttribs : Nat
  getParameterThrows : Bool
deriving DecidableEq, Repr

/-- `detectWebGLSupport` on a probe outcome (`none` when neither
`webgl` nor `experimental-webgl` yields a context). Returns the
method's boolean result paired with whether `enableFallbackMode` was
called on that path. -/
def detectWebGLSupport (gl : Option GLContext) : Bool × Bool :=
  match gl with
  | none => (false, true)
  | some g =>
    if (match g.debugInfo with
        | some (r, v) => hasProblematicDriver r v
        | none => false) then (false, true)
    else if g.getParameterThrows then (false, true)
    else if g.maxTextureSize < 1024 || g.maxVertexAttribs < 8 then (false, true)
    else (true, false)

end WebGLFallback

/-! ## Diagnostic scripts (`check.mjs`, `check-detailed.mjs`,
`test-mobile-safari.mjs`) -/

namespace Diagnostics

/-- A `pageerror` event payload: the error's message and its optional
stack string. -/
structure PageError where
  message : String
  stack : Option String
deriving DecidableEq, Repr

/-- JavaScript `a || b` on an optional string: `b` when `a` is absent
(`undefined`) or empty (falsy), else `a`. -/
def jsOrElse (a : Option String) (b : String) : String :=
  match a with
  | none => b
  | some t => if t = "" then b else t

/-- `check.mjs` line 10: `errors.push(error.message)`. -/
def checkRecordError (e : PageError) : String :=
  e.message

/-- `check-detailed.mjs` line 11: `errors.push(error.stack || error.message)`. -/
def checkDetailedRecordError (e : PageError) : String :=
  jsOrElse e.stack e.message

/-- Outcome of one `page.goto` call: resolves, or rejects with a
message (puppeteer rejects within the configured `timeout`). -/
inductive GotoResult where
  | ok
  | failed (msg : String)
deriving DecidableEq, Repr

/-- `check.mjs`'s `page.goto` timeout option, in milliseconds. -/
def checkGotoTimeoutMs : Nat := 15000

/-- `testSafariConfig`'s `page.goto` timeout option, in milliseconds. -/
def safariGotoTimeoutMs : Nat := 30000

/-- `check.mjs`'s top-level flow around navigation: there is no
`try`/`catch`, so a `goto` rejection propagates out of the module as an
uncaught rejection. -/
def checkRun (g : GotoResult) : Except String Unit :=
  match g with
  | .failed msg => .error msg
  | .ok => .ok ()

/-- `SafariDiagnostics.testSafariConfig`'s flow around navigation: the
inner `try`/`catch` catches a `goto` (or later) failure, logs it, and
records it as a crash point; nothing is rethrown. Returns the recorded
crash-point message, if the config failed. -/
def testSafariConfig (g : GotoResult) : Except String (Option String) :=
  match g with
  | .failed msg => .ok (some msg)
  | .ok => .ok none

/-- `testSafariCompatibility`: run `testSafariConfig` for each config in
order, accumulating crash points, then generate the report and finish
normally. -/
def testSafariCompatibility : List GotoResult → Except String (List String)
  | [] => .ok []
  | g :: gs =>
    match testSafariConfig g with
    | .error e => .error e
    | .ok r =>
      match testSafariCompatibility gs with
      | .error e => .error e
      | .ok rest => .ok ((match r with | some m => [m] | none => []) ++ rest)

/-- The crash-point messages of a run: the failure messages in order. -/
def failureMsgs (gs : List GotoResult) : List String :=
  gs.filterMap (fun g => match g with | .failed m => some m | .ok => none)

/-- Node process exit status for a script run: an uncaught rejection
aborts the process with a non-zero status (after printing the error);
normal completion exits 0. -/
def scriptExitCode {α : Type} : Except String α → Nat
  | .error _ => 1
  | .ok _ => 0

end Diagnostics

/-! ## Helper lemmas -/

/-- Removing the first canvas from a document with at most one canvas
leaves a document with no canvas. -/
theorem countCanvas_removeFirstCanvas (doc : List Elem)
    (h : countCanvas doc ≤ 1) : countCanvas (removeFirstCanvas doc) = 0 := by
  induction doc with
  | nil => simp [removeFirstCanvas, countCanvas]
  | cons e rest ih =>
    by_cases he : isCanvasElem e = true
    · simp only [countCanvas, List.countP_cons, he, if_pos] at h
      simp only [removeFirstCanvas, he, if_pos, countCanvas]
      omega
    · simp only [countCanvas, List.countP_cons, he, if_neg] at h
      simp only [removeFirstCanvas, he, if_neg, Bool.false_eq_true,
        not_false_eq_true, countCanvas, List.countP_cons]
      have := ih (by simpa [countCanvas] using h)
      simpa [countCanvas, he] using this

/-- Erasing a freshly appended element recovers the original list. -/
theorem erase_append_singleton_of_not_mem {α : Type} [DecidableEq α]
    (l : List α) (x : α) (h : x ∉ l) : (l ++ [x]).erase x = l := by
  rw [List.erase_append_right _ h, List.erase_cons_head, List.append_nil]

/-! ## Claim theorems -/

/-- C1: When capability probing finds no usable WebGL context and the
fallback is enabled, the document afterwards holds exactly one canvas
element: the previously present 3D canvas (the document holds at most
that one canvas) is removed and the appended 2D fallback canvas is the
only canvas remaining. -/
theorem C1_fallback_mounts_exactly_one_canvas (doc : List Elem)
    (h : countCanvas doc ≤ 1) :
    countCanvas (WebGLFallback.enableFallbackModeDoc doc) = 1 ∧
    Elem.canvas3d ∉ WebGLFallback.enableFallbackModeDoc doc ∧
    ∀ e ∈ WebGLFallback.enableFallbackModeDoc doc,
      isCanvasElem e = true → e = Elem.fallbackCanvas2d := by
  have h0 : countCanvas (removeFirstCanvas doc) = 0 :=
    countCanvas_removeFirstCanvas doc h
  have hnone : ∀ e ∈ removeFirstCanvas doc, ¬ isCanvasElem e = true := by
    simpa [countCanvas, List.countP_eq_zero] using h0
  refine ⟨?_, ?_, ?_⟩
  · simp [WebGLFallback.enableFallbackModeDoc, countCanvas, List.countP_append,
      List.countP_cons, isCanvasElem]
    simpa [countCanvas] using h0
  · intro hmem
    rcases List.mem_append.mp hmem with hl | hr
    · exact hnone _ hl rfl
    · simp at hr
  · intro e hmem hc
    rcases List.mem_append.mp hmem with hl | hr
    · exact absurd hc (hnone _ hl)
    · rcases List.mem_cons.mp hr with h1 | h2
      · exact h1
      · rw [List.mem_singleton] at h2
        subst h2
        simp [isCanvasElem] at hc

/-- Witness for C1 at a document holding the single 3D canvas. -/
theorem C1_witness :
    countCanvas [Elem.canvas3d, Elem.otherElem] ≤ 1 ∧
    (countCanvas (WebGLFallback.enableFallbackModeDoc
        [Elem.canvas3d, Elem.otherElem]) = 1 ∧
     Elem.canvas3d ∉ WebGLFallback.enableFallbackModeDoc
        [Elem.canvas3d, Elem.otherElem] ∧
     ∀ e ∈ WebGLFallback.enableFallbackModeDoc [Elem.canvas3d, Elem.otherElem],
       isCanvasElem e = true → e = Elem.fallbackCanvas2d) :=
  ⟨by decide, C1_fallback_mounts_exactly_one_canvas _ (by decide)⟩

/-- C2: `handleWebGLContextLoss` invoked while `fallbackMode` is already
`true` performs no action: the state (in particular the document, so no
second fallback canvas is mounted) is unchanged. -/
theorem C2_contextloss_activation_idempotent (s : WebGLFallback.FallbackState)
    (h : s.fallbackMode = true) :
    WebGLFallback.handleWebGLContextLoss s = s ∧
    (WebGLFallback.handleWebGLContextLoss s).doc = s.doc := by
  constructor <;> simp [WebGLFallback.handleWebGLContextLoss, h]

/-- Witness for C2 at a state with the fallback already active. -/
theorem C2_witness :
    (WebGLFallback.FallbackState.mk true
        [Elem.fallbackCanvas2d, Elem.notificationDiv]).fallbackMode = true ∧
    (WebGLFallback.handleWebGLContextLoss
        ⟨true, [Elem.fallbackCanvas2d, Elem.notificationDiv]⟩ =
      ⟨true, [Elem.fallbackCanvas2d, Elem.notificationDiv]⟩ ∧
     (WebGLFallback.handleWebGLContextLoss
        ⟨true, [Elem.fallbackCanvas2d, Elem.notificationDiv]⟩).doc =
      [Elem.fallbackCanvas2d, Elem.notificationDiv]) :=
  ⟨rfl, C2_contextloss_activation_idempotent _ rfl⟩

/-- C9: both rendering-failure banners (the `showFallbackNotification`
banner and the `showFallbackMessage` overlay) are scheduled for removal
after exactly 5000 ms, and once the scheduled callback runs, the banner
is no longer in the document (the banner node is fresh, i.e. not already
in the document when shown). -/
theorem C9_banners_removed_after_5000ms (doc : List Elem)
    (h1 : Elem.notificationDiv ∉ doc) (h2 : Elem.overlayDiv ∉ doc) :
    (WebGLFallback.showFallbackNotification doc).2.delayMs = 5000 ∧
    Elem.notificationDiv ∉
      (WebGLFallback.showFallbackNotification doc).2.run
        (WebGLFallback.showFallbackNotification doc).1 ∧
    (MobileOptimizer.showFallbackMessage doc).2.delayMs = 5000 ∧
    Elem.overlayDiv ∉
      (MobileOptimizer.showFallbackMessage doc).2.run
        (MobileOptimizer.showFallbackMessage doc).1 := by
  refine ⟨rfl, ?_, rfl, ?_⟩
  · simpa [WebGLFallback.showFallbackNotification,
      erase_append_singleton_of_not_mem doc Elem.notificationDiv h1] using h1
  · simpa [MobileOptimizer.showFallbackMessage,
      erase_append_singleton_of_not_mem doc Elem.overlayDiv h2] using h2

/-- Witness for C9 at a document holding only the 3D canvas. -/
theorem C9_witness :
    Elem.notificationDiv ∉ [Elem.canvas3d] ∧ Elem.overlayDiv ∉ [Elem.canvas3d] ∧
    ((WebGLFallback.showFallbackNotification [Elem.canvas3d]).2.delayMs = 5000 ∧
     Elem.notificationDiv ∉
       (WebGLFallback.showFallbackNotification [Elem.canvas3d]).2.run
         (WebGLFallback.showFallbackNotification [Elem.canvas3d]).1 ∧
     (MobileOptimizer.showFallbackMessage [Elem.canvas3d]).2.delayMs = 5000 ∧
     Elem.overlayDiv ∉
       (MobileOptimizer.showFallbackMessage [Elem.canvas3d]).2.run
         (MobileOptimizer.showFallbackMessage [Elem.canvas3d]).1) :=
  ⟨by decide, by decide,
   C9_banners_removed_after_5000ms [Elem.canvas3d] (by decide) (by decide)⟩

/-- C3: for every user-agent string containing a mobile device token
(`/iPhone|iPad|iPod|Android/i`), the preset selector returns the mobile
bundle: the star count is 150 when the case-sensitive iOS test matches
and 200 otherwise — in either case strictly below the desktop 400 — and
the performance pixel ratio is `min(devicePixelRatio, 1)`, hence capped
at 1 rather than the desktop cap of 2. -/
theorem C3_mobile_ua_selects_mobile_bundle (ua : String) (dpr : ℚ)
    (h : MobileOptimizer.mobileTest ua = true) :
    MobileOptimizer.getOptimizedStarCount (MobileOptimizer.mkOptimizer ua dpr) =
      (if MobileOptimizer.iosTest ua then 150 else 200) ∧
    MobileOptimizer.getOptimizedStarCount (MobileOptimizer.mkOptimizer ua dpr) < 400 ∧
    (MobileOptimizer.getPerformanceSettings
        (MobileOptimizer.mkOptimizer ua dpr)).pixelRatio = min dpr 1 ∧
    (MobileOptimizer.getPerformanceSettings
        (MobileOptimizer.mkOptimizer ua dpr)).pixelRatio ≤ 1 := by
  refine ⟨?_, ?_, ?_, ?_⟩
  · simp [MobileOptimizer.getOptimizedStarCount, MobileOptimizer.mkOptimizer, h]
  · simp only [MobileOptimizer.getOptimizedStarCount, MobileOptimizer.mkOptimizer, h,
      if_true]
    split <;> omega
  · simp [MobileOptimizer.getPerformanceSettings, MobileOptimizer.mkOptimizer, h]
  · simp only [MobileOptimizer.getPerformanceSettings, MobileOptimizer.mkOptimizer, h,
      if_true]
    exact min_le_right dpr 1

/-- Witness for C3 at the repository's iPhone user-agent string and a
device pixel ratio of 3. -/
theorem C3_witness :
    MobileOptimizer.mobileTest
      "Mozilla/5.0 (iPhone; CPU iPhone OS 17_0 like Mac OS X) AppleWebKit/605.1.15 (KHTML, like Gecko) Version/17.0 Mobile/15E148 Safari/604.1" = true ∧
    (MobileOptimizer.getOptimizedStarCount (MobileOptimizer.mkOptimizer
        "Mozilla/5.0 (iPhone; CPU iPhone OS 17_0 like Mac OS X) AppleWebKit/605.1.15 (KHTML, like Gecko) Version/17.0 Mobile/15E148 Safari/604.1" 3) =
      (if MobileOptimizer.iosTest
          "Mozilla/5.0 (iPhone; CPU iPhone OS 17_0 like Mac OS X) AppleWebKit/605.1.15 (KHTML, like Gecko) Version/17.0 Mobile/15E148 Safari/604.1"
        then 150 else 200) ∧
     MobileOptimizer.getOptimizedStarCount (MobileOptimizer.mkOptimizer
        "Mozilla/5.0 (iPhone; CPU iPhone OS 17_0 like Mac OS X) AppleWebKit/605.1.15 (KHTML, like Gecko) Version/17.0 Mobile/15E148 Safari/604.1" 3) < 400 ∧
     (MobileOptimizer.getPerformanceSettings (MobileOptimizer.mkOptimizer
        "Mozilla/5.0 (iPhone; CPU iPhone OS 17_0 like Mac OS X) AppleWebKit/605.1.15 (KHTML, like Gecko) Version/17.0 Mobile/15E148 Safari/604.1" 3)).pixelRatio =
       min 3 1 ∧
     (MobileOptimizer.getPerformanceSettings (MobileOptimizer.mkOptimizer
        "Mozilla/5.0 (iPhone; CPU iPhone OS 17_0 like Mac OS X) AppleWebKit/605.1.15 (KHTML, like Gecko) Version/17.0 Mobile/15E148 Safari/604.1" 3)).pixelRatio ≤ 1) :=
  ⟨by decide, C3_mobile_ua_selects_mobile_bundle _ 3 (by decide)⟩

/-- C4: for every user-agent string matching neither the mobile token
test nor the Safari test (the empty string included), every preset
getter returns the desktop high-quality bundle — star count 400, fov 60,
pixel ratio `min(devicePixelRatio, 2)`, desktop lighting — and, the
embedding being total exactly as the source's branch structure is,
no exception is thrown. -/
theorem C4_unknown_ua_selects_desktop_bundle (ua : String) (dpr : ℚ)
    (hm : MobileOptimizer.mobileTest ua = false)
    (hs : MobileOptimizer.safariTest ua = false) :
    MobileOptimizer.getOptimizedStarCount (MobileOptimizer.mkOptimizer ua dpr) = 400 ∧
    MobileOptimizer.getOptimizedCameraSettings (MobileOptimizer.mkOptimizer ua dpr) =
      { fov := 60, near := 1, far := 2000, posX := 0, posY := 0, posZ := 28 } ∧
    MobileOptimizer.getOptimizedLighting (MobileOptimizer.mkOptimizer ua dpr) =
      { sunLight := ⟨0xffffff, 8, none⟩
        ambientLight := ⟨0xffffff, 4/10, none⟩
        rimLight := ⟨0xd4e5ff, 6, none⟩
        textLight := ⟨0xfff8e7, 5, some 30⟩ } ∧
    MobileOptimizer.getPerformanceSettings (MobileOptimizer.mkOptimizer ua dpr) =
      { pixelRatio := min dpr 2, shadowMapSize := 2048, maxLights := 8
        enableShadows := true, enablePostProcessing := false
        textureQuality := "high" } := by
  refine ⟨?_, ?_, ?_, ?_⟩ <;>
    simp [MobileOptimizer.getOptimizedStarCount,
      MobileOptimizer.getOptimizedCameraSettings,
      MobileOptimizer.getOptimizedLighting,
      MobileOptimizer.getPerformanceSettings,
      MobileOptimizer.mkOptimizer, hm]

/-- Witness for C4 at the empty user-agent string and a device pixel
ratio of 1. -/
theorem C4_witness :
    MobileOptimizer.mobileTest "" = false ∧
    MobileOptimizer.safariTest "" = false ∧
    (MobileOptimizer.getOptimizedStarCount (MobileOptimizer.mkOptimizer "" 1) = 400 ∧
     MobileOptimizer.getOptimizedCameraSettings (MobileOptimizer.mkOptimizer "" 1) =
       { fov := 60, near := 1, far := 2000, posX := 0, posY := 0, posZ := 28 } ∧
     MobileOptimizer.getOptimizedLighting (MobileOptimizer.mkOptimizer "" 1) =
       { sunLight := ⟨0xffffff, 8, none⟩
         ambientLight := ⟨0xffffff, 4/10, none⟩
         rimLight := ⟨0xd4e5ff, 6, none⟩
         textLight := ⟨0xfff8e7, 5, some 30⟩ } ∧
     MobileOptimizer.getPerformanceSettings (MobileOptimizer.mkOptimizer "" 1) =
       { pixelRatio := min 1 2, shadowMapSize := 2048, maxLights := 8
         enableShadows := true, enablePostProcessing := false
         textureQuality := "high" }) :=
  ⟨by decide, by decide,
   C4_unknown_ua_selects_desktop_bundle "" 1 (by decide) (by decide)⟩

/-- C5: the fallback is enabled by `detectWebGLSupport` if and only if
the capability probe fails — no context obtainable, blocklisted
renderer/vendor string, limit query throwing, or probed limits below
the fixed floor (texture size < 1024 or vertex attributes < 8) — and
the method's return value is the negation of that. -/
theorem C5_fallback_iff_probe_fails (gl : Option WebGLFallback.GLContext) :
    ((WebGLFallback.detectWebGLSupport gl).2 = true ↔
      gl = none ∨ ∃ g, gl = some g ∧
        ((∃ r v, g.debugInfo = some (r, v) ∧
            WebGLFallback.hasProblematicDriver r v = true) ∨
         g.getParameterThrows = true ∨
         g.maxTextureSize < 1024 ∨ g.maxVertexAttribs < 8)) ∧
    (WebGLFallback.detectWebGLSupport gl).1 =
      !(WebGLFallback.detectWebGLSupport gl).2 := by
  match gl with
  | none => exact ⟨by simp [WebGLFallback.detectWebGLSupport], rfl⟩
  | some g =>
    constructor
    · simp only [WebGLFallback.detectWebGLSupport]
      constructor
      · intro h
        refine Or.inr ⟨g, rfl, ?_⟩
        by_cases hd : (match g.debugInfo with
            | some (r, v) => WebGLFallback.hasProblematicDriver r v
            | none => false) = true
        · left
          match hdi : g.debugInfo with
          | some (r, v) =>
            exact ⟨r, v, rfl, by rw [hdi] at hd; exact hd⟩
          | none => rw [hdi] at hd; simp at hd
        · rw [if_neg hd] at h
          by_cases ht : g.getParameterThrows = true
          · exact Or.inr (Or.inl ht)
          · rw [if_neg ht] at h
            by_cases hl : (g.maxTextureSize < 1024 ∨ g.maxVertexAttribs < 8)
            · exact Or.inr (Or.inr hl)
            · exfalso
              rw [if_neg (by simpa [decide_eq_true_eq] using hl)] at h
              simp at h
      · intro h
        rcases h with h | ⟨g', hg', hcond⟩
        · exact absurd h (by simp)
        · injection hg' with hgg
          subst hgg
          rcases hcond with ⟨r, v, hdi, hprob⟩ | ht | hl | hl
          · rw [if_pos (by rw [hdi]; exact hprob)]
          · by_cases hd : (match g.debugInfo with
                | some (r, v) => WebGLFallback.hasProblematicDriver r v
                | none => false) = true
            · rw [if_pos hd]
            · rw [if_neg hd, if_pos ht]
          · by_cases hd : (match g.debugInfo with
                | some (r, v) => WebGLFallback.hasProblematicDriver r v
                | none => false) = true
            · rw [if_pos hd]
            · rw [if_neg hd]
              by_cases ht : g.getParameterThrows = true
              · rw [if_pos ht]
              · rw [if_neg ht, if_pos (by simp [hl])]
          · by_cases hd : (match g.debugInfo with
                | some (r, v) => WebGLFallback.hasProblematicDriver r v
                | none => false) = true
            · rw [if_pos hd]
            · rw [if_neg hd]
              by_cases ht : g.getParameterThrows = true
              · rw [if_pos ht]
              · rw [if_neg ht, if_pos (by simp [hl])]
    · simp only [WebGLFallback.detectWebGLSupport]
      split <;> first | rfl | (split <;> first | rfl | (split <;> rfl))

/-- C6 counterexample: at a page whose document holds the 3D canvas,
`MobileOptimizer.handleWebGLContextLoss` — the handler its
`webglcontextlost` listener installs — leaves the 3D canvas in the
document, mounts no 2D fallback canvas, and schedules a page reload
after 2000 ms (an escalation path), contradicting the claim that the
page tears down the 3D canvas and mounts the 2D fallback canvas
unconditionally with no other escalation path. -/
theorem C6_counterexample :
    Elem.canvas3d ∈ (MobileOptimizer.handleWebGLContextLoss
        ⟨[Elem.canvas3d], true, none⟩).doc ∧
    Elem.fallbackCanvas2d ∉ (MobileOptimizer.handleWebGLContextLoss
        ⟨[Elem.canvas3d], true, none⟩).doc ∧
    (MobileOptimizer.handleWebGLContextLoss
        ⟨[Elem.canvas3d], true, none⟩).reloadDelayMs = some 2000 := by
  decide

/-- C6 amended: on a live `webglcontextlost` event,
`MobileOptimizer.handleWebGLContextLoss` stops the animation loop,
appends a temporary overlay message (leaving the 3D canvas in place and
mounting no 2D canvas), and schedules a page reload after 2 seconds;
`WebGLFallback.handleWebGLContextLoss`, when invoked with the fallback
not yet active, is the path that tears down the 3D canvas and mounts
the 2D fallback. -/
theorem C6_amended_contextloss_paths (s : MobileOptimizer.PageState)
    (t : WebGLFallback.FallbackState) (h : t.fallbackMode = false) :
    (MobileOptimizer.handleWebGLContextLoss s).doc = s.doc ++ [Elem.overlayDiv] ∧
    (MobileOptimizer.handleWebGLContextLoss s).animationLoopActive = false ∧
    (MobileOptimizer.handleWebGLContextLoss s).reloadDelayMs = some 2000 ∧
    WebGLFallback.handleWebGLContextLoss t = WebGLFallback.enableFallbackMode t := by
  refine ⟨rfl, rfl, rfl, ?_⟩
  simp [WebGLFallback.handleWebGLContextLoss, h]

/-- Witness for the amended C6 at a page holding the 3D canvas and a
fallback instance with the fallback not yet active. -/
theorem C6_witness :
    (WebGLFallback.FallbackState.mk false [Elem.canvas3d]).fallbackMode = false ∧
    ((MobileOptimizer.handleWebGLContextLoss ⟨[Elem.canvas3d], true, none⟩).doc =
       [Elem.canvas3d] ++ [Elem.overlayDiv] ∧
     (MobileOptimizer.handleWebGLContextLoss
        ⟨[Elem.canvas3d], true, none⟩).animationLoopActive = false ∧
     (MobileOptimizer.handleWebGLContextLoss
        ⟨[Elem.canvas3d], true, none⟩).reloadDelayMs = some 2000 ∧
     WebGLFallback.handleWebGLContextLoss ⟨false, [Elem.canvas3d]⟩ =
       WebGLFallback.enableFallbackMode ⟨false, [Elem.canvas3d]⟩) :=
  ⟨rfl, C6_amended_contextloss_paths ⟨[Elem.canvas3d], true, none⟩
    ⟨false, [Elem.canvas3d]⟩ rfl⟩

/-- C7 counterexample: `check-detailed.mjs`'s `pageerror` handler pushes
`error.stack || error.message`; for an error whose stack is present the
recorded text is the stack, not the message — the message is not
recorded verbatim. -/
theorem C7_counterexample :
    Diagnostics.checkDetailedRecordError
        ⟨"boom", some "Error: boom\n    at app.js:1:1"⟩ ≠ "boom" := by
  decide

/-- C7 amended: `check.mjs`'s `pageerror` handler records the error's
message verbatim; `check-detailed.mjs`'s handler records the stack when
it is present and non-empty, and falls back to the verbatim message only
when the stack is absent or empty. -/
theorem C7_amended_recorded_text (e : Diagnostics.PageError)
    (m s : String) (hs : s ≠ "") :
    Diagnostics.checkRecordError e = e.message ∧
    Diagnostics.checkDetailedRecordError ⟨m, none⟩ = m ∧
    Diagnostics.checkDetailedRecordError ⟨m, some ""⟩ = m ∧
    Diagnostics.checkDetailedRecordError ⟨m, some s⟩ = s := by
  refine ⟨rfl, rfl, rfl, ?_⟩
  simp [Diagnostics.checkDetailedRecordError, Diagnostics.jsOrElse, hs]

/-- Witness for the amended C7 at a concrete error, message and stack. -/
theorem C7_witness :
    "Error: boom" ≠ "" ∧
    (Diagnostics.checkRecordError ⟨"boom", none⟩ = "boom" ∧
     Diagnostics.checkDetailedRecordError ⟨"boom", none⟩ = "boom" ∧
     Diagnostics.checkDetailedRecordError ⟨"boom", some ""⟩ = "boom" ∧
     Diagnostics.checkDetailedRecordError ⟨"boom", some "Error: boom"⟩ =
       "Error: boom") :=
  ⟨by decide, C7_amended_recorded_text ⟨"boom", none⟩ "boom" "Error: boom"
    (by decide)⟩

/-- C8 counterexample: when navigation fails for a config (the
unreachable-URL case), `test-mobile-safari.mjs`'s per-config
`try`/`catch` swallows the failure, records it as a crash point, and the
run completes normally: the process exit status is 0, not non-zero as
the claim requires. -/
theorem C8_counterexample :
    Diagnostics.scriptExitCode (Diagnostics.testSafariCompatibility
        [Diagnostics.GotoResult.failed "net::ERR_CONNECTION_REFUSED at http://localhost:3000"]) = 0 ∧
    Diagnostics.testSafariCompatibility
        [Diagnostics.GotoResult.failed "net::ERR_CONNECTION_REFUSED at http://localhost:3000"] =
      Except.ok ["net::ERR_CONNECTION_REFUSED at http://localhost:3000"] :=
  ⟨rfl, rfl⟩

/-- C8 amended: a `page.goto` failure in `check.mjs` is not caught by the
script — the rejection propagates as an uncaught rejection whose message
the runtime prints, aborting the process with a non-zero status — while
`test-mobile-safari.mjs` catches each config's navigation failure,
prints and records it as a crash point, and always completes its run
with exit status 0. (The bound that `goto` rejects within the configured
timeout — `checkGotoTimeoutMs`/`safariGotoTimeoutMs` — is the browser
library's contract, modelled here by `GotoResult`.) -/
theorem C8_amended_navigation_failure (msg : String)
    (gs : List Diagnostics.GotoResult) :
    Diagnostics.checkRun (Diagnostics.GotoResult.failed msg) = Except.error msg ∧
    Diagnostics.scriptExitCode
      (Diagnostics.checkRun (Diagnostics.GotoResult.failed msg)) = 1 ∧
    Diagnostics.testSafariCompatibility gs =
      Except.ok (Diagnostics.failureMsgs gs) ∧
    Diagnostics.scriptExitCode (Diagnostics.testSafariCompatibility gs) = 0 := by
  have hok : Diagnostics.testSafariCompatibility gs =
      Except.ok (Diagnostics.failureMsgs gs) := by
    induction gs with
    | nil => rfl
    | cons g rest ih =>
      match g with
      | .ok =>
        simp [Diagnostics.testSafariCompatibility, Diagnostics.testSafariConfig,
          ih, Diagnostics.failureMsgs, List.filterMap_cons]
      | .failed m =>
        simp [Diagnostics.testSafariCompatibility, Diagnostics.testSafariConfig,
          ih, Diagnostics.failureMsgs, List.filterMap_cons]
  exact ⟨rfl, rfl, hok, by rw [hok]; rfl⟩

/-- C10 counterexample: `emergencyMemoryCleanup` on a three-element
`window.orbitalObjects` whose third object has no parent leaves that
removed object entirely untouched — its geometry and material are not
disposed — contradicting the claim that every removed object is detached
and disposed. -/
theorem C10_counterexample :
    (MobileOptimizer.emergencyMemoryCleanup
        [⟨true, some ⟨false⟩, .single ⟨false⟩⟩,
         ⟨true, some ⟨false⟩, .single ⟨false⟩⟩,
         ⟨false, some ⟨false⟩, .single ⟨false⟩⟩]).2 =
      [⟨false, some ⟨false⟩, .single ⟨false⟩⟩] ∧
    MobileOptimizer.materialSlotDisposed
      (MobileOptimizer.MaterialSlot.single ⟨false⟩) = false ∧
    (Option.all (fun g => g.disposed)
      (some (MobileOptimizer.Disposable.mk false))) = false := by
  decide

/-- C10 amended: `emergencyMemoryCleanup` with more than two objects in
`window.orbitalObjects` keeps exactly the first two elements, unchanged;
every removed object that has a parent is detached and has its geometry
(when present) and material(s) (when present) disposed; a removed object
without a parent is left entirely untouched (nothing is disposed). -/
theorem C10_amended_cleanup (objs : List MobileOptimizer.SceneObj)
    (h : 2 < objs.length) :
    (MobileOptimizer.emergencyMemoryCleanup objs).1 = objs.take 2 ∧
    (MobileOptimizer.emergencyMemoryCleanup objs).2 =
      (objs.drop 2).map MobileOptimizer.cleanupObj ∧
    ∀ o ∈ objs.drop 2,
      (o.parentAttached = true →
        (MobileOptimizer.cleanupObj o).parentAttached = false ∧
        Option.all (fun g => g.disposed) (MobileOptimizer.cleanupObj o).geometry =
          true ∧
        MobileOptimizer.materialSlotDisposed
          (MobileOptimizer.cleanupObj o).material = true) ∧
      (o.parentAttached = false → MobileOptimizer.cleanupObj o = o) := by
  refine ⟨rfl, rfl, ?_⟩
  intro o _
  constructor
  · intro hp
    refine ⟨?_, ?_, ?_⟩
    · simp [MobileOptimizer.cleanupObj, hp]
    · simp only [MobileOptimizer.cleanupObj, hp, if_true]
      cases o.geometry <;> simp [Option.all]
    · simp only [MobileOptimizer.cleanupObj, hp, if_true]
      cases o.material <;>
        simp [MobileOptimizer.disposeMaterialSlot,
          MobileOptimizer.materialSlotDisposed, List.all_map]
  · intro hp
    simp [MobileOptimizer.cleanupObj, hp]

/-- Witness for the amended C10 at a four-object list whose third object
is attached to a parent and whose fourth has none. -/
theorem C10_witness :
    2 < ([⟨true, some ⟨false⟩, .single ⟨false⟩⟩,
          ⟨true, none, .noMaterial⟩,
          ⟨true, some ⟨false⟩, .array [⟨false⟩, ⟨false⟩]⟩,
          ⟨false, some ⟨false⟩, .single ⟨false⟩⟩] :
            List MobileOptimizer.SceneObj).length ∧
    ((MobileOptimizer.emergencyMemoryCleanup
        [⟨true, some ⟨false⟩, .single ⟨false⟩⟩,
         ⟨true, none, .noMaterial⟩,
         ⟨true, some ⟨false⟩, .array [⟨false⟩, ⟨false⟩]⟩,
         ⟨false, some ⟨false⟩, .single ⟨false⟩⟩]).1 =
      ([⟨true, some ⟨false⟩, .single ⟨false⟩⟩,
        ⟨true, none, .noMaterial⟩,
        ⟨true, some ⟨false⟩, .array [⟨false⟩, ⟨false⟩]⟩,
        ⟨false, some ⟨false⟩, .single ⟨false⟩⟩] :
          List MobileOptimizer.SceneObj).take 2 ∧
     (MobileOptimizer.emergencyMemoryCleanup
        [⟨true, some ⟨false⟩, .single ⟨false⟩⟩,
         ⟨true, none, .noMaterial⟩,
         ⟨true, some ⟨false⟩, .array [⟨false⟩, ⟨false⟩]⟩,
         ⟨false, some ⟨false⟩, .single ⟨false⟩⟩]).2 =
      (([⟨true, some ⟨false⟩, .single ⟨false⟩⟩,
         ⟨true, none, .noMaterial⟩,
         ⟨true, some ⟨false⟩, .array [⟨false⟩, ⟨false⟩]⟩,
         ⟨false, some ⟨false⟩, .single ⟨false⟩⟩] :
           List MobileOptimizer.SceneObj).drop 2).map MobileOptimizer.cleanupObj ∧
     ∀ o ∈ ([⟨true, some ⟨false⟩, .single ⟨false⟩⟩,
             ⟨true, none, .noMaterial⟩,
             ⟨true, some ⟨false⟩, .array [⟨false⟩, ⟨false⟩]⟩,
             ⟨false, some ⟨false⟩, .single ⟨false⟩⟩] :
               List MobileOptimizer.SceneObj).drop 2,
       (o.parentAttached = true →
         (MobileOptimizer.cleanupObj o).parentAttached = false ∧
         Option.all (fun g => g.disposed) (MobileOptimizer.cleanupObj o).geometry =
           true ∧
         MobileOptimizer.materialSlotDisposed
           (MobileOptimizer.cleanupObj o).material = true) ∧
       (o.parentAttached = false → MobileOptimizer.cleanupObj o = o)) :=
  ⟨by decide, C10_amended_cleanup _ (by decide)⟩
